import Mathlib

/-!
Verification of the DDL canonicalizer/comparator
(`nextlinux-ci/db_canonicalizer.py`).

The program splits two Postgres schema dumps into statements, buckets each
statement by a fixed case-sensitive keyword-prefix chain into ten categories,
and compares the two resulting classifications, reporting per-category set
differences on inequality.

Shallow embedding choices:
- A statement (Python `str`) is a `List Char` (`Stmt`); Python's
  `str.startswith` is list-prefix testing.
- The statement splitter (`sqlparse.split`) is an external collaborator per
  the spec; the classifier is embedded as a function on the already-split
  statement list.
- The dict `all_stmts` with its ten fixed keys is a structure
  `Classification` with ten list fields, plus `Classification.all_stmts`
  recovering the literal association list of the source; Python dict/list
  equality is the structure's decidable equality (both dicts always carry
  exactly the same ten keys in the same insertion order).
- `log.debug` / `log.fail` calls of the comparator are modelled as a returned
  list of `LogEntry`; `sys.exit` as the returned exit code. The classifier's
  own debug channel for unknown statements is its second result component.
- Python's `set()` is `Finset`, `set.difference` is `Finset` difference.
- The `__main__` block is `main_entry`, parameterised by an oracle `fs`
  mapping a file path to the statements obtained by reading and splitting it;
  its observable behaviour is a list of `MainAction`s.
-/

namespace DbCanonicalizer

/-- One parsed SQL statement, as produced by the external splitter. -/
abbrev Stmt := List Char

/-- Python `stmt.startswith(pre)`: `pre` is a literal list-prefix of `stmt`. -/
def startswith (stmt pre : Stmt) : Bool :=
  pre.isPrefixOf stmt

/-- The ten fixed category keys of the `all_stmts` dict (source lines 111-121). -/
inductive Category
  | alter
  | comment
  | create_extension
  | create_index
  | create_schema
  | create_sequence
  | create_table
  | create_type
  | select
  | sets
  deriving DecidableEq

/-- The `all_stmts` hashtable of `canonicalize_ddl`: ten keys, each holding the
ordered sequence (duplicates kept) of statements assigned to that category. -/
structure Classification where
  alter : List Stmt
  comment : List Stmt
  create_extension : List Stmt
  create_index : List Stmt
  create_schema : List Stmt
  create_sequence : List Stmt
  create_table : List Stmt
  create_type : List Stmt
  select : List Stmt
  sets : List Stmt
  deriving DecidableEq

/-- Dict indexing `all_stmts[stmt_type]`. -/
def Classification.get (cl : Classification) : Category → List Stmt
  | .alter => cl.alter
  | .comment => cl.comment
  | .create_extension => cl.create_extension
  | .create_index => cl.create_index
  | .create_schema => cl.create_schema
  | .create_sequence => cl.create_sequence
  | .create_table => cl.create_table
  | .create_type => cl.create_type
  | .select => cl.select
  | .sets => cl.sets

/-- The literal dict of source lines 111-121, as an association list in
insertion order, keyed by the Python string keys. -/
def Classification.all_stmts (cl : Classification) : List (Stmt × List Stmt) :=
  [ ("alter".data, cl.alter),
    ("comment".data, cl.comment),
    ("create_extension".data, cl.create_extension),
    ("create_index".data, cl.create_index),
    ("create_schema".data, cl.create_schema),
    ("create_sequence".data, cl.create_sequence),
    ("create_table".data, cl.create_table),
    ("create_type".data, cl.create_type),
    ("select".data, cl.select),
    ("sets".data, cl.sets) ]

/-- The ten dict keys in insertion order. -/
def category_keys : List Stmt :=
  [ "alter".data, "comment".data, "create_extension".data, "create_index".data,
    "create_schema".data, "create_sequence".data, "create_table".data,
    "create_type".data, "select".data, "sets".data ]

/-- The classification with all ten lists empty: the state of `all_stmts`
before the statement loop runs. -/
def empty_stmts : Classification :=
  ⟨[], [], [], [], [], [], [], [], [], []⟩

/-- Append a statement to the sequence of one category, leaving the other
nine sequences untouched; the common shape of the ten `append` branches of
the classifier loop. -/
def Classification.append_stmt (cl : Classification) : Category → Stmt → Classification
  | .alter, stmt => { cl with alter := cl.alter ++ [stmt] }
  | .comment, stmt => { cl with comment := cl.comment ++ [stmt] }
  | .create_extension, stmt => { cl with create_extension := cl.create_extension ++ [stmt] }
  | .create_index, stmt => { cl with create_index := cl.create_index ++ [stmt] }
  | .create_schema, stmt => { cl with create_schema := cl.create_schema ++ [stmt] }
  | .create_sequence, stmt => { cl with create_sequence := cl.create_sequence ++ [stmt] }
  | .create_table, stmt => { cl with create_table := cl.create_table ++ [stmt] }
  | .create_type, stmt => { cl with create_type := cl.create_type ++ [stmt] }
  | .select, stmt => { cl with select := cl.select ++ [stmt] }
  | .sets, stmt => { cl with sets := cl.sets ++ [stmt] }

/-- One iteration of the statement loop of `canonicalize_ddl` (source lines
127-149): the if/elif chain appends `stmt` to the matching category's list, or
emits a debug record for an unknown statement. The second component is the
debug channel. -/
def canonicalize_step (cl : Classification) (dbg : List Stmt) (stmt : Stmt) :
    Classification × List Stmt :=
  if startswith stmt "ALTER".data then
    ({ cl with alter := cl.alter ++ [stmt] }, dbg)
  else if startswith stmt "COMMENT".data then
    ({ cl with comment := cl.comment ++ [stmt] }, dbg)
  else if startswith stmt "CREATE EXTENSION".data then
    ({ cl with create_extension := cl.create_extension ++ [stmt] }, dbg)
  else if startswith stmt "CREATE SEQUENCE".data then
    ({ cl with create_sequence := cl.create_sequence ++ [stmt] }, dbg)
  else if startswith stmt "CREATE SCHEMA".data then
    ({ cl with create_schema := cl.create_schema ++ [stmt] }, dbg)
  else if startswith stmt "CREATE TABLE".data then
    ({ cl with create_table := cl.create_table ++ [stmt] }, dbg)
  else if startswith stmt "CREATE TYPE".data then
    ({ cl with create_type := cl.create_type ++ [stmt] }, dbg)
  else if startswith stmt "CREATE INDEX".data || startswith stmt "CREATE UNIQUE INDEX".data then
    ({ cl with create_index := cl.create_index ++ [stmt] }, dbg)
  else if startswith stmt "SELECT".data then
    ({ cl with select := cl.select ++ [stmt] }, dbg)
  else if startswith stmt "SET".data then
    ({ cl with sets := cl.sets ++ [stmt] }, dbg)
  else
    (cl, dbg ++ ["Unknown statement: ".data ++ stmt])

/-- The statement loop of `canonicalize_ddl` as a fold step on the pair of the
dict under construction and the debug channel. -/
def canonicalize_loop (acc : Classification × List Stmt) (stmt : Stmt) :
    Classification × List Stmt :=
  canonicalize_step acc.1 acc.2 stmt

/-- `canonicalize_ddl` (source lines 99-151) on the statement list produced by
the splitter: fold the loop body over the statements, starting from the empty
dict and an empty debug channel. -/
def canonicalize_ddl (statements : List Stmt) : Classification × List Stmt :=
  statements.foldl canonicalize_loop (empty_stmts, [])

/-- The priority-ordered classification rules of the if/elif chain, as data:
each rule is the list of prefixes it tests together with its target category.
Written from the claim's description of the chain; `first_match` below is
proved to agree with `canonicalize_step`. -/
def priority_rules : List (List Stmt × Category) :=
  [ (["ALTER".data], .alter),
    (["COMMENT".data], .comment),
    (["CREATE EXTENSION".data], .create_extension),
    (["CREATE SEQUENCE".data], .create_sequence),
    (["CREATE SCHEMA".data], .create_schema),
    (["CREATE TABLE".data], .create_table),
    (["CREATE TYPE".data], .create_type),
    (["CREATE INDEX".data, "CREATE UNIQUE INDEX".data], .create_index),
    (["SELECT".data], .select),
    (["SET".data], .sets) ]

/-- The category of the first rule whose prefix list contains a match for
`stmt`, in priority order; `none` when no rule matches. -/
def first_match (stmt : Stmt) : Option Category :=
  (priority_rules.find? (fun r => r.1.any (fun p => startswith stmt p))).map Prod.snd

/-- The `stmt_type` iteration order of `compare_ddl_files` (source lines
164-166). -/
def stmt_types : List Category :=
  [ .alter, .comment, .create_extension, .create_index, .create_schema,
    .create_sequence, .create_table, .create_type, .select, .sets ]

/-- One logging call of `compare_ddl_files`: the debug line of the fast path,
the per-category debug line for equal sets, and the two failure-level lines
carrying the directed set differences. -/
inductive LogEntry
  | debugSame
  | debugEqual (c : Category)
  | failOldNotNew (c : Category) (s : Finset Stmt)
  | failNewNotOld (c : Category) (s : Finset Stmt)
  deriving DecidableEq

/-- The loop body of `compare_ddl_files` for one `stmt_type` (source lines
168-176): convert both sequences to sets; log one debug line when equal,
otherwise the two failure-level difference lines. -/
def compare_category (old_stmts new_stmts : Classification) (c : Category) :
    List LogEntry :=
  let old_set := (old_stmts.get c).toFinset
  let new_set := (new_stmts.get c).toFinset
  if old_set = new_set then
    [.debugEqual c]
  else
    [.failOldNotNew c (old_set \ new_set), .failNewNotOld c (new_set \ old_set)]

/-- `compare_ddl_files` (source lines 154-178) after both files are
canonicalized: exit 0 when the two dicts are equal (lists compared in order,
with multiplicity); otherwise log per-category results and exit 1. Returns
the exit code and the log. -/
def compare_ddl_files (old_stmts new_stmts : Classification) :
    Nat × List LogEntry :=
  if old_stmts = new_stmts then
    (0, [.debugSame])
  else
    (1, stmt_types.flatMap (compare_category old_stmts new_stmts))

/-- An observable action of the `__main__` block. -/
inductive MainAction
  | printUsage (msg : Stmt)
  | openFile (path : Stmt)
  | exitWith (code : Nat)
  deriving DecidableEq

/-- The usage message printed on a wrong argument count (source line 182). -/
def usage_message : Stmt :=
  "Args should include old DDL file and new DDL file, relative to pwd.".data

/-- The `__main__` block (source lines 180-185): with `argv` including the
program name, any length other than 3 prints the usage message and exits 1;
otherwise both files are opened, split (the oracle `fs` supplies the
statements each path yields), canonicalized and compared. -/
def main_entry (fs : Stmt → List Stmt) (argv : List Stmt) : List MainAction :=
  if argv.length ≠ 3 then
    [.printUsage usage_message, .exitWith 1]
  else
    match argv with
    | [_, old_file, new_file] =>
        let old_stmts := (canonicalize_ddl (fs old_file)).1
        let new_stmts := (canonicalize_ddl (fs new_file)).1
        [.openFile old_file, .openFile new_file,
         .exitWith (compare_ddl_files old_stmts new_stmts).1]
    | _ => []

/-! ### Basic lemmas about the classifier -/

/-- `find?` over a cons cell written as an `if`. -/
lemma find?_cons_eq_ite {α : Type} (p : α → Bool) (a : α) (l : List α) :
    (a :: l).find? p = if p a then some a else l.find? p := by
  cases hp : p a <;> simp [hp]

/-- `first_match` unfolded over the concrete rule list: the same nested
conditional chain as the source's if/elif dispatch. -/
lemma first_match_eq (stmt : Stmt) :
    first_match stmt =
      if startswith stmt "ALTER".data then some .alter
      else if startswith stmt "COMMENT".data then some .comment
      else if startswith stmt "CREATE EXTENSION".data then some .create_extension
      else if startswith stmt "CREATE SEQUENCE".data then some .create_sequence
      else if startswith stmt "CREATE SCHEMA".data then some .create_schema
      else if startswith stmt "CREATE TABLE".data then some .create_table
      else if startswith stmt "CREATE TYPE".data then some .create_type
      else if startswith stmt "CREATE INDEX".data || startswith stmt "CREATE UNIQUE INDEX".data then
        some .create_index
      else if startswith stmt "SELECT".data then some .select
      else if startswith stmt "SET".data then some .sets
      else none := by
  unfold first_match priority_rules
  rw [find?_cons_eq_ite, find?_cons_eq_ite, find?_cons_eq_ite, find?_cons_eq_ite,
    find?_cons_eq_ite, find?_cons_eq_ite, find?_cons_eq_ite, find?_cons_eq_ite,
    find?_cons_eq_ite, find?_cons_eq_ite, List.find?_nil]
  simp only [List.any_cons, List.any_nil, Bool.or_false, apply_ite (Option.map Prod.snd)]
  rfl

/-- The loop body dispatches exactly on `first_match`: a matching statement is
appended to the matched category and the debug channel is untouched, an
unmatched one leaves the dict alone and is recorded on the debug channel. -/
lemma canonicalize_step_spec (cl : Classification) (dbg : List Stmt) (stmt : Stmt) :
    canonicalize_step cl dbg stmt =
      match first_match stmt with
      | some c => (cl.append_stmt c stmt, dbg)
      | none => (cl, dbg ++ ["Unknown statement: ".data ++ stmt]) := by
  rw [canonicalize_step, first_match_eq]
  by_cases h1 : startswith stmt "ALTER".data
  · simp only [if_pos h1]; rfl
  · simp only [if_neg h1]
    by_cases h2 : startswith stmt "COMMENT".data
    · simp only [if_pos h2]; rfl
    · simp only [if_neg h2]
      by_cases h3 : startswith stmt "CREATE EXTENSION".data
      · simp only [if_pos h3]; rfl
      · simp only [if_neg h3]
        by_cases h4 : startswith stmt "CREATE SEQUENCE".data
        · simp only [if_pos h4]; rfl
        · simp only [if_neg h4]
          by_cases h5 : startswith stmt "CREATE SCHEMA".data
          · simp only [if_pos h5]; rfl
          · simp only [if_neg h5]
            by_cases h6 : startswith stmt "CREATE TABLE".data
            · simp only [if_pos h6]; rfl
            · simp only [if_neg h6]
              by_cases h7 : startswith stmt "CREATE TYPE".data
              · simp only [if_pos h7]; rfl
              · simp only [if_neg h7]
                by_cases h8 :
                    (startswith stmt "CREATE INDEX".data ||
                      startswith stmt "CREATE UNIQUE INDEX".data : Bool)
                · simp only [if_pos h8]; rfl
                · simp only [if_neg h8]
                  by_cases h9 : startswith stmt "SELECT".data
                  · simp only [if_pos h9]; rfl
                  · simp only [if_neg h9]
                    by_cases h10 : startswith stmt "SET".data
                    · simp only [if_pos h10]; rfl
                    · simp only [if_neg h10]

/-- Reading a category out of `append_stmt`: only the targeted category's
sequence changes, by appending the statement at its end. -/
lemma get_append_stmt (cl : Classification) (c c' : Category) (stmt : Stmt) :
    (cl.append_stmt c stmt).get c' =
      if c = c' then cl.get c' ++ [stmt] else cl.get c' := by
  cases c <;> cases c' <;> simp [Classification.append_stmt, Classification.get]

/-- Per-category effect of one loop iteration: the statement lands in the
category selected by `first_match`, and in no other. -/
lemma canonicalize_step_get (cl : Classification) (dbg : List Stmt) (stmt : Stmt) (c : Category) :
    ((canonicalize_step cl dbg stmt).1).get c =
      if first_match stmt = some c then cl.get c ++ [stmt] else cl.get c := by
  rw [canonicalize_step_spec]
  cases hfm : first_match stmt with
  | none => simp
  | some c0 => rw [get_append_stmt]; simp [Option.some.injEq]

/-- Debug-channel effect of one loop iteration: exactly the unmatched
statements are recorded. -/
lemma canonicalize_step_dbg (cl : Classification) (dbg : List Stmt) (stmt : Stmt) :
    (canonicalize_step cl dbg stmt).2 =
      if first_match stmt = none then dbg ++ ["Unknown statement: ".data ++ stmt] else dbg := by
  rw [canonicalize_step_spec]
  cases hfm : first_match stmt <;> simp

/-- Every category occurs in the comparator's iteration list. -/
lemma stmt_types_mem (c : Category) : c ∈ stmt_types := by
  cases c <;> simp [stmt_types]

/-- Two classifications are equal exactly when all ten category sequences
agree. -/
lemma Classification.eq_iff_get (a b : Classification) :
    a = b ↔ ∀ c ∈ stmt_types, a.get c = b.get c := by
  constructor
  · intro h c _
    rw [h]
  · intro h
    cases a
    cases b
    simp only [stmt_types, List.mem_cons, List.not_mem_nil, or_false, forall_eq_or_imp,
      forall_eq, Classification.get] at h
    obtain ⟨h1, h2, h3, h4, h5, h6, h7, h8, h9, h10⟩ := h
    simp only [Classification.mk.injEq]
    exact ⟨h1, h2, h3, h4, h5, h6, h7, h8, h9, h10⟩

/-! ### Lemmas about the comparator -/

/-- The comparator exits 0 exactly when the two dicts are equal as built,
sequences compared in order and with multiplicity. -/
lemma compare_exit_eq_zero_iff (a b : Classification) :
    (compare_ddl_files a b).1 = 0 ↔ a = b := by
  unfold compare_ddl_files
  split_ifs with h <;> simp [h]

/-- Characterisation of the old-minus-new failure lines in the comparator's
log: one occurs for category `c` exactly when the run took the slow path, the
two statement sets of `c` differ, and the reported set is the directed
difference old minus new. -/
lemma fail_old_mem_iff (a b : Classification) (c : Category) (s : Finset Stmt) :
    LogEntry.failOldNotNew c s ∈ (compare_ddl_files a b).2 ↔
      ((a.get c).toFinset ≠ (b.get c).toFinset ∧
        s = (a.get c).toFinset \ (b.get c).toFinset) := by
  unfold compare_ddl_files
  split_ifs with hab
  · subst hab
    simp
  · simp only [List.mem_flatMap]
    constructor
    · rintro ⟨c', -, hmem⟩
      simp only [compare_category] at hmem
      split_ifs at hmem with h
      · simp at hmem
      · simp only [List.mem_cons, List.not_mem_nil, or_false, List.mem_singleton] at hmem
        rcases hmem with hmem | hmem
        · obtain ⟨rfl, rfl⟩ := LogEntry.failOldNotNew.inj hmem
          exact ⟨h, rfl⟩
        · cases hmem
    · rintro ⟨hne, rfl⟩
      refine ⟨c, stmt_types_mem c, ?_⟩
      unfold compare_category
      rw [if_neg hne]
      simp

/-- Characterisation of the new-minus-old failure lines, mirror image of
`fail_old_mem_iff`. -/
lemma fail_new_mem_iff (a b : Classification) (c : Category) (s : Finset Stmt) :
    LogEntry.failNewNotOld c s ∈ (compare_ddl_files a b).2 ↔
      ((a.get c).toFinset ≠ (b.get c).toFinset ∧
        s = (b.get c).toFinset \ (a.get c).toFinset) := by
  unfold compare_ddl_files
  split_ifs with hab
  · subst hab
    simp
  · simp only [List.mem_flatMap]
    constructor
    · rintro ⟨c', -, hmem⟩
      simp only [compare_category] at hmem
      split_ifs at hmem with h
      · simp at hmem
      · simp only [List.mem_cons, List.not_mem_nil, or_false, List.mem_singleton] at hmem
        rcases hmem with hmem | hmem
        · cases hmem
        · obtain ⟨rfl, rfl⟩ := LogEntry.failNewNotOld.inj hmem
          exact ⟨h, rfl⟩
    · rintro ⟨hne, rfl⟩
      refine ⟨c, stmt_types_mem c, ?_⟩
      unfold compare_category
      rw [if_neg hne]
      simp

/-- When every listed category has equal statement sets, the slow-path log is
one "Statements equal" debug line per category and nothing else. -/
lemma flatMap_debug_of_sets_eq (a b : Classification) (l : List Category)
    (h : ∀ c ∈ l, (a.get c).toFinset = (b.get c).toFinset) :
    l.flatMap (compare_category a b) = l.map LogEntry.debugEqual := by
  induction l with
  | nil => rfl
  | cons c rest ih =>
    rw [List.flatMap_cons, List.map_cons,
      ih (fun c' hc' => h c' (List.mem_cons_of_mem _ hc'))]
    have hc : compare_category a b c = [.debugEqual c] := by
      unfold compare_category
      rw [if_pos (h c (List.mem_cons_self _ _))]
    rw [hc, List.singleton_append]

/-! ### Lemmas about the whole classifier run -/

/-- The dict built by the classifier loop does not depend on the debug channel
it started from. -/
lemma foldl_loop_fst_dbg_irrel (statements : List Stmt) (cl : Classification)
    (dbg dbg' : List Stmt) :
    (statements.foldl canonicalize_loop (cl, dbg)).1 =
    (statements.foldl canonicalize_loop (cl, dbg')).1 := by
  induction statements generalizing cl dbg dbg' with
  | nil => rfl
  | cons s rest ih =>
    simp only [List.foldl_cons, canonicalize_loop, canonicalize_step_spec]
    cases hfm : first_match s
    · exact ih ..
    · exact ih ..

/-- Unmatched statements do not affect the dict: running the loop on the
recognised sublist builds the same classification. -/
lemma foldl_loop_filter (statements : List Stmt) (cl : Classification)
    (dbg dbg' : List Stmt) :
    (statements.foldl canonicalize_loop (cl, dbg)).1 =
    ((statements.filter (fun s => (first_match s).isSome)).foldl canonicalize_loop
      (cl, dbg')).1 := by
  induction statements generalizing cl dbg dbg' with
  | nil => rfl
  | cons s rest ih =>
    cases hfm : first_match s with
    | some c =>
      rw [List.filter_cons_of_pos (by simp [hfm])]
      simp only [List.foldl_cons, canonicalize_loop, canonicalize_step_spec, hfm]
      exact ih ..
    | none =>
      rw [List.filter_cons_of_neg (by simp [hfm])]
      simp only [List.foldl_cons, canonicalize_loop, canonicalize_step_spec, hfm]
      exact ih ..

/-- The classifier loop never drops debug records. -/
lemma foldl_loop_dbg_mem (statements : List Stmt) (cl : Classification)
    (dbg : List Stmt) (e : Stmt) (he : e ∈ dbg) :
    e ∈ (statements.foldl canonicalize_loop (cl, dbg)).2 := by
  induction statements generalizing cl dbg with
  | nil => exact he
  | cons s rest ih =>
    simp only [List.foldl_cons, canonicalize_loop, canonicalize_step_spec]
    cases hfm : first_match s
    · exact ih _ _ (by simp [he])
    · exact ih _ _ he

/-- Every unmatched statement of the input leaves its diagnostic record on the
debug channel of the finished run. -/
lemma foldl_loop_unknown_mem (statements : List Stmt) (cl : Classification)
    (dbg : List Stmt) (stmt : Stmt) (hmem : stmt ∈ statements)
    (hnone : first_match stmt = none) :
    ("Unknown statement: ".data ++ stmt) ∈ (statements.foldl canonicalize_loop (cl, dbg)).2 := by
  induction statements generalizing cl dbg with
  | nil => cases hmem
  | cons s rest ih =>
    simp only [List.foldl_cons, canonicalize_loop, canonicalize_step_spec]
    rcases List.mem_cons.mp hmem with rfl | hrest
    · rw [hnone]
      exact foldl_loop_dbg_mem _ _ _ _ (by simp)
    · cases hfm : first_match s
      · exact ih _ _ hrest
      · exact ih _ _ hrest

/-- Two prefix tests against the same statement cannot both succeed when
neither tested string is a prefix of the other. -/
lemma startswith_excl (stmt p q : Stmt) (hp : startswith stmt p = true)
    (hpq : p.isPrefixOf q = false) (hqp : q.isPrefixOf p = false) :
    startswith stmt q = false := by
  by_contra hq
  rw [Bool.not_eq_false] at hq
  unfold startswith at hp hq
  rw [List.isPrefixOf_iff_prefix] at hp hq
  rcases List.prefix_or_prefix_of_prefix hp hq with hh | hh
  · rw [← List.isPrefixOf_iff_prefix] at hh
    simp [hh] at hpq
  · rw [← List.isPrefixOf_iff_prefix] at hh
    simp [hh] at hqp

/-! ### The claims -/

/-- C1 (counterexample): the two classifications below have equal statement
sets in every one of the ten categories, yet the comparator does not exit 0 —
the fast path compares the sequences in order, so a pure reordering already
fails the equivalence test. -/
theorem C1_counterexample_sets_equal_but_exit_nonzero :
    (∀ c ∈ stmt_types,
        ((⟨[], [], [], [], [], [], [], [], [],
            ["SET a;".data, "SET b;".data]⟩ : Classification).get c).toFinset =
        ((⟨[], [], [], [], [], [], [], [], [],
            ["SET b;".data, "SET a;".data]⟩ : Classification).get c).toFinset) ∧
    (compare_ddl_files
        ⟨[], [], [], [], [], [], [], [], [], ["SET a;".data, "SET b;".data]⟩
        ⟨[], [], [], [], [], [], [], [], [], ["SET b;".data, "SET a;".data]⟩).1 ≠ 0 := by
  decide

/-- C1 (amended): the comparator reports Equivalent (exit status 0) if and
only if, for every one of the ten categories, the old and new statement
sequences are equal as sequences — order and duplicate multiplicity
respected. Per-category set equality follows from this but does not suffice
for exit 0. -/
theorem C1_exit_zero_iff_sequences_equal (old_stmts new_stmts : Classification) :
    (compare_ddl_files old_stmts new_stmts).1 = 0 ↔
      ∀ c ∈ stmt_types, old_stmts.get c = new_stmts.get c := by
  rw [compare_exit_eq_zero_iff]
  exact Classification.eq_iff_get old_stmts new_stmts

/-- C2: whenever the comparator does not report Equivalent, every category
whose two statement sets differ gets both failure-level entries — the
statements only in old and the statements only in new, in that category —
and the exit status is 1. -/
theorem C2_differing_category_reported (old_stmts new_stmts : Classification) (c : Category)
    (hne : (compare_ddl_files old_stmts new_stmts).1 ≠ 0)
    (hset : (old_stmts.get c).toFinset ≠ (new_stmts.get c).toFinset) :
    (compare_ddl_files old_stmts new_stmts).1 = 1 ∧
    LogEntry.failOldNotNew c
        ((old_stmts.get c).toFinset \ (new_stmts.get c).toFinset) ∈
      (compare_ddl_files old_stmts new_stmts).2 ∧
    LogEntry.failNewNotOld c
        ((new_stmts.get c).toFinset \ (old_stmts.get c).toFinset) ∈
      (compare_ddl_files old_stmts new_stmts).2 := by
  have hne' : old_stmts ≠ new_stmts := fun he =>
    hne ((compare_exit_eq_zero_iff old_stmts new_stmts).mpr he)
  refine ⟨?_, ?_, ?_⟩
  · unfold compare_ddl_files
    rw [if_neg hne']
  · exact (fail_old_mem_iff old_stmts new_stmts c _).mpr ⟨hset, rfl⟩
  · exact (fail_new_mem_iff old_stmts new_stmts c _).mpr ⟨hset, rfl⟩

/-- C2 (witness): a pair differing in the `sets` category, where the
new-minus-old difference is empty and is still recorded. -/
theorem C2_witness :
    (compare_ddl_files
        ⟨[], [], [], [], [], [], [], [], [], ["SET a;".data, "SET b;".data]⟩
        ⟨[], [], [], [], [], [], [], [], [], ["SET a;".data]⟩).1 ≠ 0 ∧
    ((⟨[], [], [], [], [], [], [], [], [],
        ["SET a;".data, "SET b;".data]⟩ : Classification).get .sets).toFinset ≠
      ((⟨[], [], [], [], [], [], [], [], [],
        ["SET a;".data]⟩ : Classification).get .sets).toFinset ∧
    ((compare_ddl_files
        ⟨[], [], [], [], [], [], [], [], [], ["SET a;".data, "SET b;".data]⟩
        ⟨[], [], [], [], [], [], [], [], [], ["SET a;".data]⟩).1 = 1 ∧
      LogEntry.failOldNotNew .sets
          (((⟨[], [], [], [], [], [], [], [], [],
              ["SET a;".data, "SET b;".data]⟩ : Classification).get .sets).toFinset \
            ((⟨[], [], [], [], [], [], [], [], [],
              ["SET a;".data]⟩ : Classification).get .sets).toFinset) ∈
        (compare_ddl_files
          ⟨[], [], [], [], [], [], [], [], [], ["SET a;".data, "SET b;".data]⟩
          ⟨[], [], [], [], [], [], [], [], [], ["SET a;".data]⟩).2 ∧
      LogEntry.failNewNotOld .sets
          (((⟨[], [], [], [], [], [], [], [], [],
              ["SET a;".data]⟩ : Classification).get .sets).toFinset \
            ((⟨[], [], [], [], [], [], [], [], [],
              ["SET a;".data, "SET b;".data]⟩ : Classification).get .sets).toFinset) ∈
        (compare_ddl_files
          ⟨[], [], [], [], [], [], [], [], [], ["SET a;".data, "SET b;".data]⟩
          ⟨[], [], [], [], [], [], [], [], [], ["SET a;".data]⟩).2) :=
  ⟨by decide, by decide,
    C2_differing_category_reported _ _ .sets (by decide) (by decide)⟩

/-- C3: a category whose two statement sequences are equal as sets — in
particular when they differ only in duplicate multiplicity or order — never
receives a failure-level difference entry. -/
theorem C3_equal_sets_never_reported (old_stmts new_stmts : Classification) (c : Category)
    (hset : (old_stmts.get c).toFinset = (new_stmts.get c).toFinset) :
    ∀ s : Finset Stmt,
      LogEntry.failOldNotNew c s ∉ (compare_ddl_files old_stmts new_stmts).2 ∧
      LogEntry.failNewNotOld c s ∉ (compare_ddl_files old_stmts new_stmts).2 := by
  intro s
  constructor
  · rw [fail_old_mem_iff]
    rintro ⟨hne, -⟩
    exact hne hset
  · rw [fail_new_mem_iff]
    rintro ⟨hne, -⟩
    exact hne hset

/-- C3 (witness): old has two copies of a CREATE TABLE statement, new has one;
the category's sets are equal and no failure entry names the category. -/
theorem C3_witness :
    ((⟨[], [], [], [], [], [],
        ["CREATE TABLE foo(a int);".data, "CREATE TABLE foo(a int);".data],
        [], [], []⟩ : Classification).get .create_table).toFinset =
      ((⟨[], [], [], [], [], [],
        ["CREATE TABLE foo(a int);".data],
        [], [], []⟩ : Classification).get .create_table).toFinset ∧
    (LogEntry.failOldNotNew .create_table ∅ ∉
      (compare_ddl_files
        ⟨[], [], [], [], [], [],
          ["CREATE TABLE foo(a int);".data, "CREATE TABLE foo(a int);".data],
          [], [], []⟩
        ⟨[], [], [], [], [], [],
          ["CREATE TABLE foo(a int);".data],
          [], [], []⟩).2 ∧
     LogEntry.failNewNotOld .create_table ∅ ∉
      (compare_ddl_files
        ⟨[], [], [], [], [], [],
          ["CREATE TABLE foo(a int);".data, "CREATE TABLE foo(a int);".data],
          [], [], []⟩
        ⟨[], [], [], [], [], [],
          ["CREATE TABLE foo(a int);".data],
          [], [], []⟩).2) :=
  ⟨by decide, C3_equal_sets_never_reported _ _ .create_table (by decide) ∅⟩

/-- C4: for every input statement list — the empty one and all-unrecognised
ones included — the dict built by the classifier carries exactly the ten
category keys, in their fixed insertion order. -/
theorem C4_all_categories_present (statements : List Stmt) :
    ((canonicalize_ddl statements).1.all_stmts).map Prod.fst = category_keys :=
  rfl

/-- C5: each statement processed by the classifier loop is appended to the
sequence of at most one category — the one selected by the first matching
rule of the priority-ordered, case-sensitive prefix list — and to no category
at all when no prefix matches; every other sequence is left unchanged. -/
theorem C5_first_matching_rule_wins (cl : Classification) (dbg : List Stmt)
    (stmt : Stmt) (c : Category) :
    ((canonicalize_step cl dbg stmt).1).get c =
      if first_match stmt = some c then cl.get c ++ [stmt] else cl.get c :=
  canonicalize_step_get cl dbg stmt c

/-- C6: a statement beginning with `CREATE UNIQUE INDEX` is dispatched to the
create_index category — no earlier rule captures it and it never reaches the
unknown-statement branch, so the debug channel is untouched. -/
theorem C6_create_unique_index_classified (stmt : Stmt)
    (h : startswith stmt "CREATE UNIQUE INDEX".data = true) :
    first_match stmt = some Category.create_index ∧
    ∀ cl dbg, canonicalize_step cl dbg stmt =
      (cl.append_stmt Category.create_index stmt, dbg) := by
  have hA := startswith_excl stmt _ "ALTER".data h (by decide) (by decide)
  have hC := startswith_excl stmt _ "COMMENT".data h (by decide) (by decide)
  have hE := startswith_excl stmt _ "CREATE EXTENSION".data h (by decide) (by decide)
  have hQ := startswith_excl stmt _ "CREATE SEQUENCE".data h (by decide) (by decide)
  have hS := startswith_excl stmt _ "CREATE SCHEMA".data h (by decide) (by decide)
  have hT := startswith_excl stmt _ "CREATE TABLE".data h (by decide) (by decide)
  have hY := startswith_excl stmt _ "CREATE TYPE".data h (by decide) (by decide)
  have hfm : first_match stmt = some Category.create_index := by
    rw [first_match_eq]
    simp [hA, hC, hE, hQ, hS, hT, hY, h]
  refine ⟨hfm, fun cl dbg => ?_⟩
  rw [canonicalize_step_spec, hfm]

/-- C6 (witness): a concrete CREATE UNIQUE INDEX statement. -/
theorem C6_witness :
    startswith "CREATE UNIQUE INDEX i ON t(x);".data "CREATE UNIQUE INDEX".data = true ∧
    first_match "CREATE UNIQUE INDEX i ON t(x);".data = some Category.create_index ∧
    canonicalize_step empty_stmts [] "CREATE UNIQUE INDEX i ON t(x);".data =
      (empty_stmts.append_stmt Category.create_index "CREATE UNIQUE INDEX i ON t(x);".data,
        []) :=
  ⟨by decide,
    (C6_create_unique_index_classified _ (by decide)).1,
    (C6_create_unique_index_classified _ (by decide)).2 empty_stmts []⟩

/-- C7: unmatched statements are recorded on the debug channel and excluded
from the classification, so they never reach the comparison: two inputs whose
recognised statements coincide classify identically and compare as
Equivalent (exit 0). -/
theorem C7_unknown_statements_ignored (old_list new_list : List Stmt)
    (h : old_list.filter (fun s => (first_match s).isSome) =
         new_list.filter (fun s => (first_match s).isSome)) :
    (∀ stmt ∈ old_list, first_match stmt = none →
        ("Unknown statement: ".data ++ stmt) ∈ (canonicalize_ddl old_list).2) ∧
    (canonicalize_ddl old_list).1 =
      (canonicalize_ddl (old_list.filter (fun s => (first_match s).isSome))).1 ∧
    (compare_ddl_files (canonicalize_ddl old_list).1 (canonicalize_ddl new_list).1).1 = 0 := by
  refine ⟨fun stmt hmem hnone =>
    foldl_loop_unknown_mem old_list empty_stmts [] stmt hmem hnone, ?_, ?_⟩
  · exact foldl_loop_filter old_list empty_stmts [] []
  · rw [compare_exit_eq_zero_iff]
    calc (canonicalize_ddl old_list).1
        = (canonicalize_ddl (old_list.filter (fun s => (first_match s).isSome))).1 :=
          foldl_loop_filter old_list empty_stmts [] []
      _ = (canonicalize_ddl (new_list.filter (fun s => (first_match s).isSome))).1 := by
          rw [h]
      _ = (canonicalize_ddl new_list).1 :=
          (foldl_loop_filter new_list empty_stmts [] []).symm

/-- C7 (witness): old carries an extra unrecognised `VACUUM ANALYZE t;`
statement absent from new; it is logged, and the pair compares Equivalent. -/
theorem C7_witness :
    (["CREATE TABLE t(id int);".data, "VACUUM ANALYZE t;".data].filter
        (fun s => (first_match s).isSome) =
      ["CREATE TABLE t(id int);".data].filter (fun s => (first_match s).isSome)) ∧
    (compare_ddl_files
        (canonicalize_ddl ["CREATE TABLE t(id int);".data, "VACUUM ANALYZE t;".data]).1
        (canonicalize_ddl ["CREATE TABLE t(id int);".data]).1).1 = 0 ∧
    ("Unknown statement: ".data ++ "VACUUM ANALYZE t;".data) ∈
      (canonicalize_ddl ["CREATE TABLE t(id int);".data, "VACUUM ANALYZE t;".data]).2 :=
  ⟨by decide,
    (C7_unknown_statements_ignored
      ["CREATE TABLE t(id int);".data, "VACUUM ANALYZE t;".data]
      ["CREATE TABLE t(id int);".data] (by decide)).2.2,
    (C7_unknown_statements_ignored
      ["CREATE TABLE t(id int);".data, "VACUUM ANALYZE t;".data]
      ["CREATE TABLE t(id int);".data] (by decide)).1
      "VACUUM ANALYZE t;".data (by decide) (by decide)⟩

/-- C8: comparison is symmetric — swapping the two classifications flips the
verdict not at all, and the extra-in-A set that `compare A B` reports as
"in old but not new" is exactly what `compare B A` reports as "in new but
not old". -/
theorem C8_comparison_symmetric (A B : Classification) :
    ((compare_ddl_files A B).1 = 0 ↔ (compare_ddl_files B A).1 = 0) ∧
    ∀ c s, (LogEntry.failOldNotNew c s ∈ (compare_ddl_files A B).2 ↔
            LogEntry.failNewNotOld c s ∈ (compare_ddl_files B A).2) := by
  constructor
  · rw [compare_exit_eq_zero_iff, compare_exit_eq_zero_iff]
    exact eq_comm
  · intro c s
    rw [fail_old_mem_iff, fail_new_mem_iff]
    constructor
    · rintro ⟨h1, h2⟩
      exact ⟨fun he => h1 he.symm, h2⟩
    · rintro ⟨h1, h2⟩
      exact ⟨fun he => h1 he.symm, h2⟩

/-- C9: any invocation whose argument vector does not have exactly three
entries (program name plus two positional arguments) prints the usage message,
exits with status 1 and opens no file. -/
theorem C9_usage_error (fs : Stmt → List Stmt) (argv : List Stmt)
    (h : argv.length ≠ 3) :
    main_entry fs argv = [.printUsage usage_message, .exitWith 1] ∧
    ∀ p, MainAction.openFile p ∉ main_entry fs argv := by
  have hm : main_entry fs argv = [.printUsage usage_message, .exitWith 1] := by
    unfold main_entry
    rw [if_pos h]
  refine ⟨hm, fun p hp => ?_⟩
  rw [hm] at hp
  simp at hp

/-- C9 (witness): a single positional argument. -/
theorem C9_witness :
    (["prog".data, "old.sql".data] : List Stmt).length ≠ 3 ∧
    main_entry (fun _ => []) ["prog".data, "old.sql".data] =
      [.printUsage usage_message, .exitWith 1] ∧
    MainAction.openFile "old.sql".data ∉
      main_entry (fun _ => []) ["prog".data, "old.sql".data] :=
  ⟨by decide,
    (C9_usage_error (fun _ => []) _ (by decide)).1,
    (C9_usage_error (fun _ => []) _ (by decide)).2 _⟩

/-- C10: when the two classifications differ as sequences while every
category's statement set is equal, the comparator exits 1 and its slow-path
log is exactly the ten per-category "Statements equal" debug lines — a failing
run with an empty difference report. -/
theorem C10_fails_with_empty_report (old_stmts new_stmts : Classification)
    (hne : old_stmts ≠ new_stmts)
    (hsets : ∀ c ∈ stmt_types,
        (old_stmts.get c).toFinset = (new_stmts.get c).toFinset) :
    (compare_ddl_files old_stmts new_stmts).1 = 1 ∧
    (compare_ddl_files old_stmts new_stmts).2 = stmt_types.map LogEntry.debugEqual := by
  unfold compare_ddl_files
  rw [if_neg hne]
  exact ⟨rfl, flatMap_debug_of_sets_eq old_stmts new_stmts stmt_types hsets⟩

/-- C10 (witness): the alter sequences hold the same two statements in
opposite orders. -/
theorem C10_witness :
    ((⟨["ALTER TABLE a;".data, "ALTER TABLE b;".data],
        [], [], [], [], [], [], [], [], []⟩ : Classification) ≠
      ⟨["ALTER TABLE b;".data, "ALTER TABLE a;".data],
        [], [], [], [], [], [], [], [], []⟩) ∧
    (∀ c ∈ stmt_types,
        (((⟨["ALTER TABLE a;".data, "ALTER TABLE b;".data],
            [], [], [], [], [], [], [], [], []⟩ : Classification).get c).toFinset =
        (((⟨["ALTER TABLE b;".data, "ALTER TABLE a;".data],
            [], [], [], [], [], [], [], [], []⟩ : Classification).get c).toFinset))) ∧
    ((compare_ddl_files
        ⟨["ALTER TABLE a;".data, "ALTER TABLE b;".data],
          [], [], [], [], [], [], [], [], []⟩
        ⟨["ALTER TABLE b;".data, "ALTER TABLE a;".data],
          [], [], [], [], [], [], [], [], []⟩).1 = 1 ∧
      (compare_ddl_files
        ⟨["ALTER TABLE a;".data, "ALTER TABLE b;".data],
          [], [], [], [], [], [], [], [], []⟩
        ⟨["ALTER TABLE b;".data, "ALTER TABLE a;".data],
          [], [], [], [], [], [], [], [], []⟩).2 = stmt_types.map LogEntry.debugEqual) :=
  ⟨by decide, by decide,
    C10_fails_with_empty_report _ _ (by decide) (by decide)⟩

end DbCanonicalizer
